import Mathlib

/-!
Verification development for the Weaver scraping library.

Shallow embedding of the core components of the repository:
* `weaver/proxy/manager.py` — the semaphore-gated proxy endpoint allocator;
* `weaver/http/client.py` — the retrying HTTP client with exponential backoff;
* `weaver/spider/runner.py` and `weaver/spider/base_spider.py` — the spider
  build / run / cleanup orchestrator.

Python conventions are made explicit: `Optional` values become `Option`,
Python truthiness of optional strings and lists is modelled by dedicated
predicates, raised exceptions become error constructors, and the
single-threaded cooperative scheduler means an `await semaphore.acquire()`
with no free permit (and nobody left to release one) is a distinct
`blocked` outcome rather than an error.  Python floats used for retry
delays and timeouts are modelled as exact rationals.
-/

namespace Weaver

/-! ### Proxy data model (`weaver/proxy/dataclasses.py`) -/

/-- Embeds the `ProxyPool` dataclass.  `max_connections` is an `int` used as
a semaphore size; `rotating_endpoint` and `static_endpoints` are
`Optional`. -/
structure ProxyPool where
  max_connections : Nat
  username : String := ""
  password : String := ""
  rotating_endpoint : Option String := none
  static_endpoints : Option (List String) := none
  deriving Repr, DecidableEq

/-- Python truthiness of an `Optional[str]`: `None` and the empty string are
falsy. -/
def truthyStr : Option String → Bool
  | none => false
  | some s => !s.isEmpty

/-- Python truthiness of an `Optional[list]`: `None` and the empty list are
falsy. -/
def truthyList : Option (List String) → Bool
  | none => false
  | some l => !l.isEmpty

/-! ### Proxy manager (`weaver/proxy/manager.py`)

`ProxyManager` owns an `asyncio.Semaphore(pool.max_connections)` and the
class-level set `_static_endpoint_pool` of leased static endpoints.  The
mutable state is the number of free permits and the leased set, modelled as
the list of endpoints added so far (only membership is ever queried, so the
list is a faithful model of the Python `set`). -/

structure ProxyState where
  available : Nat
  leased : List String
  deriving Repr, DecidableEq

/-- Result of one `acquire_rotating` / `acquire_static` call under the
single-threaded cooperative scheduler.  `blocked` is the outcome of
`await self.semaphore.acquire()` finding no free permit: nothing in the
program ever releases a permit, so the coroutine suspends forever.
`missingConfig` embeds the `RuntimeError` raised when the needed endpoint
kind is not configured (the spec's `ConfigError`); `proxyError` embeds the
`ProxyError` raised by `_get_static_endpoint` when every static endpoint is
already leased (the spec's `ProxyExhausted`). -/
inductive AcquireOutcome where
  | acquired (endpoint : String)
  | blocked
  | proxyError
  | missingConfig
  deriving Repr, DecidableEq

/-- Embeds `ProxyManager._get_static_endpoint`: scan the configured static
list for the first entry not in the leased set; `none` means the method
raises `ProxyError`. -/
def get_static_endpoint (pool : ProxyPool) (leased : List String) :
    Option String :=
  if truthyList pool.static_endpoints then
    (pool.static_endpoints.getD []).find? (fun e => !(decide (e ∈ leased)))
  else
    none

/-- Embeds `ProxyManager.acquire_static`: if the pool has (truthy) static
endpoints, acquire a permit (suspending forever when none is free), select
the first unleased endpoint, add it to the leased set and return it, or
raise `ProxyError` when all are leased.  Without static endpoints, raise
`RuntimeError` before touching the semaphore. -/
def acquire_static (pool : ProxyPool) (st : ProxyState) :
    AcquireOutcome × ProxyState :=
  if truthyList pool.static_endpoints then
    if st.available = 0 then
      (.blocked, st)
    else
      let st1 : ProxyState := { st with available := st.available - 1 }
      match get_static_endpoint pool st1.leased with
      | some e => (.acquired e, { st1 with leased := e :: st1.leased })
      | none => (.proxyError, st1)
  else
    (.missingConfig, st)

/-- Embeds `ProxyManager.acquire_rotating`: if a (truthy) rotating endpoint
is configured, acquire a permit and return the endpoint; otherwise raise
`RuntimeError` before touching the semaphore. -/
def acquire_rotating (pool : ProxyPool) (st : ProxyState) :
    AcquireOutcome × ProxyState :=
  if truthyStr pool.rotating_endpoint then
    if st.available = 0 then
      (.blocked, st)
    else
      (.acquired (pool.rotating_endpoint.getD ""),
        { st with available := st.available - 1 })
  else
    (.missingConfig, st)

/-- Iterate `acquire_static` for a given number of calls on one manager,
collecting the outcome of each call in order. -/
def acquireStaticN (pool : ProxyPool) : Nat → ProxyState →
    List AcquireOutcome × ProxyState
  | 0, st => ([], st)
  | n + 1, st =>
    let r := acquire_static pool st
    let rest := acquireStaticN pool n r.2
    (r.1 :: rest.1, rest.2)

/-! ### HTTP data model (`weaver/http/dataclasses.py`)

Header/cookie/param dictionaries are modelled as association lists; floats
(timeouts, retry delays) as rationals.  The random session-default headers
produced by `generate_default_headers()` are just some optional value here:
no claim depends on their content. -/

/-- Embeds the `HttpConfig` dataclass: session-wide defaults. -/
structure HttpConfig where
  headers : Option (List (String × String))
  cookies : Option (List (String × String))
  timeout : Rat
  impersonate : String
  deriving Repr, DecidableEq

/-- Embeds the `RequestConfig` dataclass: per-request configuration and
overrides. -/
structure RequestConfig where
  url : String
  method : String := "GET"
  impersonate : Option String := none
  headers : Option (List (String × String)) := none
  cookies : Option (List (String × String)) := none
  params : Option (List (String × String)) := none
  json : Option String := none
  data : Option String := none
  timeout : Option Rat := none
  max_retries : Nat := 3
  retry_delay : Rat := 1
  extra_kwargs : List (String × String) := []
  proxy_endpoint : Option String := none
  deriving Repr, DecidableEq

/-- The keyword-argument dictionary built by
`HttpClient._build_request_kwargs` and passed to `session.request`.  The
seven named keys are always present; `extra` holds the entries of
`config.extra_kwargs` that survive the right-biased dict union
`config.extra_kwargs | request_kwargs`. -/
structure RequestKwargs where
  headers : Option (List (String × String))
  cookies : Option (List (String × String))
  timeout : Rat
  impersonate : String
  params : Option (List (String × String))
  data : Option String
  json : Option String
  extra : List (String × String)
  deriving Repr, DecidableEq

/-- The keys always written into `request_kwargs` by
`HttpClient._build_request_kwargs`; in the union
`config.extra_kwargs | request_kwargs` the right side wins on these keys. -/
def reservedKwargKeys : List String :=
  ["headers", "cookies", "timeout", "impersonate", "params", "data", "json"]

/-- Embeds `HttpClient._build_request_kwargs`: each of headers, cookies,
timeout and impersonate takes the per-request value when it `is not None`,
else the session default. -/
def build_request_kwargs (session : HttpConfig) (config : RequestConfig) :
    RequestKwargs :=
  { headers := match config.headers with
      | some h => some h
      | none => session.headers
    cookies := match config.cookies with
      | some c => some c
      | none => session.cookies
    timeout := match config.timeout with
      | some t => t
      | none => session.timeout
    impersonate := match config.impersonate with
      | some i => i
      | none => session.impersonate
    params := config.params
    data := config.data
    json := config.json
    extra := config.extra_kwargs.filter
      (fun kv => !(reservedKwargKeys.contains kv.1)) }

/-- Modelled from the spec: the merge rule for a field whose session
default is itself optional — "use the per-request value if present, else
the session default".  Stated separately from `build_request_kwargs` so
the code can be compared against the spec's field-by-field rule. -/
def mergeOptField (request sessionDefault : Option α) : Option α :=
  match request with
  | some v => some v
  | none => sessionDefault

/-- Modelled from the spec: the merge rule for a field whose session
default is mandatory — "use the per-request value if present, else the
session default". -/
def mergeReqField (request : Option α) (sessionDefault : α) : α :=
  match request with
  | some v => v
  | none => sessionDefault

/-! ### HTTP client execution (`weaver/http/client.py`)

The transport engine (`curl_cffi` `AsyncSession.request`) is a collaborator
specified at its interface: per attempt index it either returns a response,
raises a retryable error (`RequestsError` or `asyncio.TimeoutError`), or
raises some other unexpected exception. -/

/-- Behaviour of `self._session.request` on one attempt. -/
inductive TransportStep where
  | ok (status : Nat) (body : String)
  | netError (cause : String)
  | unexpected (cause : String)
  deriving Repr, DecidableEq

/-- A `curl_cffi` `Response` handle.  `attemptId` records which attempt
produced it, so the fate of each obtained response resource can be
tracked. -/
structure HttpResponse where
  status_code : Nat
  text : String
  attemptId : Nat
  deriving Repr, DecidableEq

/-- The `HttpClientError` variants raised by `HttpClient`:
`network` from `_handle_network_error` on the final attempt (wraps the
transport cause); `statusError` from `_handle_error_response` (carries
`status_code` and `response_text`); `loopExit` is the raise after the
retry loop; `wrappedUnexpected` is `request` wrapping a non-`HttpClientError`
exception. -/
inductive HttpClientErr where
  | network (cause : String)
  | statusError (status : Nat) (body : String)
  | loopExit
  | wrappedUnexpected (cause : String)
  deriving Repr, DecidableEq

/-- An exception propagating out of `request_raw`: either an
`HttpClientError`, or the raw unexpected Python exception (which only
`request` later wraps). -/
inductive RawFailure where
  | client (e : HttpClientErr)
  | pyError (cause : String)
  deriving Repr, DecidableEq

deriving instance DecidableEq for Except

/-- Everything observable about one `request_raw` call: the durations
passed to `asyncio.sleep` in order, the attempt ids at which the transport
returned a `Response` object, the number of transport invocations, and the
returned response or the propagating exception. -/
structure RawOutcome where
  sleeps : List Rat
  obtained : List Nat
  attempts : Nat
  result : Except RawFailure HttpResponse
  deriving Repr, DecidableEq

/-- Embeds the retry loop of `HttpClient.request_raw` together with
`_make_single_request` and `_handle_network_error`, starting at a given
attempt index with the remaining loop iterations as fuel.  A response with
status at least 400 raises `HttpClientError` (not caught by the retry
`except`); a retryable transport error on the final attempt raises
`HttpClientError` wrapping the cause, on earlier attempts sleeps
`retry_delay * 2 ^ attempt` and retries; an unexpected exception
propagates raw.  The fuel-exhausted case is the `raise` after the loop. -/
def requestRawAux (t : Nat → TransportStep) (maxRetries : Nat)
    (retryDelay : Rat) : Nat → Nat → RawOutcome
  | _, 0 => ⟨[], [], 0, .error (.client .loopExit)⟩
  | attempt, fuel + 1 =>
    match t attempt with
    | .ok status body =>
      if 400 ≤ status then
        ⟨[], [attempt], 1, .error (.client (.statusError status body))⟩
      else
        ⟨[], [attempt], 1, .ok ⟨status, body, attempt⟩⟩
    | .netError cause =>
      if attempt = maxRetries then
        ⟨[], [], 1, .error (.client (.network cause))⟩
      else
        let rest := requestRawAux t maxRetries retryDelay (attempt + 1) fuel
        ⟨retryDelay * 2 ^ attempt :: rest.sleeps, rest.obtained,
          rest.attempts + 1, rest.result⟩
    | .unexpected cause => ⟨[], [], 1, .error (.pyError cause)⟩

/-- Embeds `HttpClient.request_raw`: the loop runs attempts
`0 .. config.max_retries` inclusive. -/
def request_raw (t : Nat → TransportStep) (config : RequestConfig) :
    RawOutcome :=
  requestRawAux t config.max_retries config.retry_delay 0
    (config.max_retries + 1)

/-- Everything observable about one `HttpClient.request` call; `closed`
lists the attempt ids of the responses on which `response.close()` runs. -/
structure RequestOutcome where
  sleeps : List Rat
  obtained : List Nat
  closed : List Nat
  attempts : Nat
  result : Except HttpClientErr (Nat × String)
  deriving Repr, DecidableEq

/-- Embeds `HttpClient.request`: calls `request_raw`; re-raises an
`HttpClientError` as-is and wraps any other exception; on success returns
`(status_code, text)`.  The `finally` block closes the local `response`
only when the assignment from `request_raw` completed, so on every error
path of `request_raw` nothing is closed here. -/
def request (t : Nat → TransportStep) (config : RequestConfig) :
    RequestOutcome :=
  let raw := request_raw t config
  match raw.result with
  | .ok resp =>
    ⟨raw.sleeps, raw.obtained, [resp.attemptId], raw.attempts,
      .ok (resp.status_code, resp.text)⟩
  | .error (.client e) =>
    ⟨raw.sleeps, raw.obtained, [], raw.attempts, .error e⟩
  | .error (.pyError cause) =>
    ⟨raw.sleeps, raw.obtained, [], raw.attempts,
      .error (.wrappedUnexpected cause)⟩

/-! ### Spider orchestration (`weaver/spider/runner.py`,
`weaver/spider/base_spider.py`, `weaver/spider/dataclasses.py`)

`SpiderMode` is the `Literal` alias from `weaver/spider/types.py` whose
three members `browser`, `http`, `hybrid` are fixed by the validation in
`SpiderRunner._build_spider`.  A spider class with a missing or invalid
`MODE` attribute is modelled as mode `none`. -/

inductive SpiderMode where
  | browser
  | http
  | hybrid
  deriving Repr, DecidableEq

/-- Embeds the `BrowserConfig` dataclass from
`weaver/browser/dataclasses.py` (launch options as an association list). -/
structure BrowserConfig where
  browser_type : String := "chromium"
  headless : Bool := true
  launch_options : List (String × String) := []
  deriving Repr, DecidableEq

/-- A constructed `BrowserClient` (`weaver/browser/client.py`), identified
by the config it was created from; its Playwright internals are outside
the embedding. -/
structure BrowserClient where
  config : BrowserConfig
  deriving Repr, DecidableEq

/-- A constructed `HttpClient` object (`weaver/http/client.py`), identified
by its session config. -/
structure HttpClient where
  config : HttpConfig
  deriving Repr, DecidableEq

/-- Embeds the `SpiderConfig` dataclass. -/
structure SpiderConfig where
  browser : Option BrowserConfig := none
  http : Option HttpConfig := none
  proxy_pool : Option ProxyPool := none
  deriving Repr, DecidableEq

/-- The client fields a `BaseSpider` instance receives in `__init__`.  The
proxy manager is identified by the pool it was built over. -/
structure SpiderClients where
  browser_client : Option BrowserClient
  http_client : Option HttpClient
  proxy_manager : Option ProxyPool
  deriving Repr, DecidableEq

/-- Exceptions out of `SpiderRunner._build_spider`: `invalidMode` and
`noClients` are the two `SpiderError` raises (invalid `MODE`; neither
client supplied to `BaseSpider.__init__`); `browserClientError` is the
`BrowserClientError` from `_build_browser`. -/
inductive BuildError where
  | invalidMode
  | noClients
  | browserClientError (cause : String)
  deriving Repr, DecidableEq

/-- Embeds `SpiderRunner._build_browser`: with no (falsy) browser config
return `None`; otherwise `BrowserClient.create`, whose failure is wrapped
as `BrowserClientError`.  `create` stands for the browser engine
collaborator. -/
def build_browser (create : BrowserConfig → Except String BrowserClient)
    (config : SpiderConfig) : Except BuildError (Option BrowserClient) :=
  match config.browser with
  | none => .ok none
  | some b =>
    match create b with
    | .ok c => .ok (some c)
    | .error e => .error (.browserClientError e)

/-- Embeds `SpiderRunner._build_http`: with no (falsy) http config return
`None`, else construct the client (the constructor cannot fail). -/
def build_http (config : SpiderConfig) : Option HttpClient :=
  config.http.map HttpClient.mk

/-- Embeds `SpiderRunner._build_proxy`: a `ProxyManager` over the pool when
one is configured, else `None`. -/
def build_proxy (config : SpiderConfig) : Option ProxyPool :=
  config.proxy_pool

/-- Embeds `SpiderRunner._build_spider` followed by `BaseSpider.__init__`:
validate the mode, build proxy manager, browser client (for `browser` and
`hybrid` modes) and http client (for `http` and `hybrid` modes), then the
`BaseSpider` constructor raises `SpiderError` when it receives neither a
browser client nor an http client. -/
def build_spider (create : BrowserConfig → Except String BrowserClient)
    (config : SpiderConfig) (mode : Option SpiderMode) :
    Except BuildError SpiderClients :=
  match mode with
  | none => .error .invalidMode
  | some m =>
    let proxy_manager := build_proxy config
    match (if m = .browser ∨ m = .hybrid
        then build_browser create config
        else .ok none) with
    | .error e => .error e
    | .ok browser_client =>
      let http_client :=
        if m = .http ∨ m = .hybrid then build_http config else none
      if browser_client = none ∧ http_client = none then
        .error .noClients
      else
        .ok ⟨browser_client, http_client, proxy_manager⟩

/-- Behaviour of one execution of `spider.run(**params)` as consumed by the
`async for` loop in `SpiderRunner.scrape`: the records yielded, and
whether the generator then finishes or raises. -/
inductive RunOutcome where
  | completes (records : List String)
  | failsAfter (records : List String) (cause : String)
  deriving Repr, DecidableEq

/-- Behaviour of the two close collaborators during `_cleanup`:
`browserClose` is `spider.browser_client.close()`, `httpClose` is
`spider.http_client.close()`. -/
structure CloseBehavior where
  browserClose : Except String Unit
  httpClose : Except String Unit
  deriving Repr, DecidableEq

/-- A close invocation observed during `_cleanup`, in order. -/
inductive CloseCall where
  | browser
  | http
  deriving Repr, DecidableEq

/-- An exception propagating out of `SpiderRunner._cleanup`: either a
`BrowserClientError` or an `HttpClientError` wrapping the cause. -/
inductive CleanupError where
  | browserClientError (cause : String)
  | httpClientError (cause : String)
  deriving Repr, DecidableEq

/-- The second `try` block of `SpiderRunner._cleanup`: close the http
client when there is one; a failure propagates as `HttpClientError`. -/
def cleanupHttpStep (clients : SpiderClients) (cb : CloseBehavior) :
    List CloseCall × Except CleanupError Unit :=
  match clients.http_client with
  | none => ([], .ok ())
  | some _ =>
    match cb.httpClose with
    | .ok _ => ([.http], .ok ())
    | .error e => ([.http], .error (.httpClientError e))

/-- Embeds `SpiderRunner._cleanup`: first `try` block closes the browser
client; a failure raises `BrowserClientError` out of `_cleanup`
immediately, so the http block is only reached when the browser close
succeeded (or there was no browser client). -/
def cleanup (clients : SpiderClients) (cb : CloseBehavior) :
    List CloseCall × Except CleanupError Unit :=
  match clients.browser_client with
  | none => cleanupHttpStep clients cb
  | some _ =>
    match cb.browserClose with
    | .error e => ([.browser], .error (.browserClientError e))
    | .ok _ =>
      let r := cleanupHttpStep clients cb
      (.browser :: r.1, r.2)

/-- The `WeaverError` surfaced by `SpiderRunner.scrape`, tagged by which of
its three `raise WeaverError` sites produced it.  Per Python semantics a
`raise` inside the `finally` block replaces the exception in flight, so a
cleanup failure yields `cleanupFailed` regardless of any pending run
error (the run error survives only as implicit traceback context, not in
the raised error's payload). -/
inductive ScrapeError where
  | buildFailed (cause : BuildError)
  | runFailed (cause : String)
  | cleanupFailed (cause : CleanupError)
  deriving Repr, DecidableEq

/-- Everything observable about one `SpiderRunner.scrape` execution: the
records yielded to the consumer before any failure, the close calls made
during cleanup, and the final outcome. -/
structure ScrapeResult where
  records : List String
  closes : List CloseCall
  outcome : Except ScrapeError Unit
  deriving Repr, DecidableEq

/-- Embeds `SpiderRunner.scrape`: build the spider (a failure is wrapped
as `WeaverError` and no cleanup runs, since the `try/finally` has not been
entered); stream the run's records; wrap a run failure as `WeaverError`;
the `finally` block runs `_cleanup`, and a cleanup failure is wrapped as a
new `WeaverError` that replaces any pending run error. -/
def scrape (create : BrowserConfig → Except String BrowserClient)
    (config : SpiderConfig) (mode : Option SpiderMode)
    (runBehavior : RunOutcome) (cb : CloseBehavior) : ScrapeResult :=
  match build_spider create config mode with
  | .error e => ⟨[], [], .error (.buildFailed e)⟩
  | .ok clients =>
    let records := match runBehavior with
      | .completes rs => rs
      | .failsAfter rs _ => rs
    let pending : Option String := match runBehavior with
      | .completes _ => none
      | .failsAfter _ c => some c
    let cl := cleanup clients cb
    match cl.2 with
    | .error ce => ⟨records, cl.1, .error (.cleanupFailed ce)⟩
    | .ok _ =>
      match pending with
      | some c => ⟨records, cl.1, .error (.runFailed c)⟩
      | none => ⟨records, cl.1, .ok ()⟩

end Weaver

namespace Weaver

/-! ## Theorems -/

/-- Helper: scanning `pre ++ e :: suf` for the first element outside the
leased set returns `e` whenever the leased set contains exactly the
members of `pre` (among the scanned elements) and the scanned list has no
duplicates. -/
theorem find_first_unleased (e : String) (suf : List String) :
    ∀ (pre leased : List String),
      (pre ++ e :: suf).Nodup →
      (∀ x, x ∈ pre ++ e :: suf → (x ∈ leased ↔ x ∈ pre)) →
      (pre ++ e :: suf).find? (fun x => !(decide (x ∈ leased))) = some e := by
  intro pre
  induction pre with
  | nil =>
    intro leased _ hl
    have h1 : e ∉ leased := by
      have := hl e (by simp)
      simpa using this
    simp only [List.nil_append]
    apply List.find?_cons_of_pos
    simp [h1]
  | cons p pre2 ih =>
    intro leased hn hl
    have hp : p ∈ leased := (hl p (by simp)).mpr (by simp)
    rw [List.cons_append]
    rw [List.find?_cons_of_neg _ (by simp [hp])]
    rw [List.cons_append] at hn
    have hn1 := List.nodup_cons.mp hn
    apply ih leased hn1.2
    intro x hx
    have hne : x ≠ p := fun h => hn1.1 (h ▸ hx)
    have hx2 := hl x (by simp [hx])
    simpa [List.mem_cons, hne] using hx2

/-- Helper: running `suf.length + 1` static acquisitions over a
duplicate-free pool whose not-yet-leased members are exactly `suf` (in
list order after leased prefix `pre`) succeeds once per member of `suf`
and then raises `ProxyError`, consuming one permit per call. -/
theorem acquireStaticN_spec_aux (pool : ProxyPool) (eps : List String)
    (hpool : pool.static_endpoints = some eps) (hne : eps ≠ [])
    (hnd : eps.Nodup) :
    ∀ (suf pre leased : List String) (avail : Nat),
      eps = pre ++ suf →
      (∀ x, x ∈ eps → (x ∈ leased ↔ x ∈ pre)) →
      suf.length + 1 ≤ avail →
      (acquireStaticN pool (suf.length + 1) ⟨avail, leased⟩).1
          = suf.map AcquireOutcome.acquired ++ [AcquireOutcome.proxyError]
        ∧ (acquireStaticN pool (suf.length + 1) ⟨avail, leased⟩).2.available
          = avail - (suf.length + 1) := by
  intro suf
  induction suf with
  | nil =>
    intro pre leased avail heq hl ha
    have htr : truthyList pool.static_endpoints = true := by
      rw [hpool]; simpa [truthyList] using hne
    have hav : ¬ avail = 0 := by omega
    have hfind : get_static_endpoint pool leased = none := by
      rw [get_static_endpoint, if_pos htr, hpool]
      simp only [Option.getD_some]
      rw [List.find?_eq_none]
      intro x hx
      have : x ∈ leased := by
        rw [hl x hx]
        simpa [heq] using hx
      simp [this]
    simp [acquireStaticN, acquire_static, htr, hav, hfind]
  | cons e suf2 ih =>
    intro pre leased avail heq hl ha
    have htr : truthyList pool.static_endpoints = true := by
      rw [hpool]; simpa [truthyList] using hne
    have hav : ¬ avail = 0 := by omega
    have hfind : get_static_endpoint pool leased = some e := by
      rw [get_static_endpoint, if_pos htr, hpool]
      simp only [Option.getD_some]
      rw [heq]
      apply find_first_unleased e suf2 pre leased (heq ▸ hnd)
      intro x hx
      exact hl x (heq ▸ hx)
    have hrec := ih (pre ++ [e]) (e :: leased) (avail - 1)
      (by rw [heq]; simp)
      (by
        intro x hx
        have h1 := hl x hx
        have h2 : x ∈ pre ++ [e] ↔ x ∈ pre ∨ x = e := by simp
        simp only [List.mem_cons, h1, h2]
        tauto)
      (by simp at ha ⊢; omega)
    have hstep : acquire_static pool ⟨avail, leased⟩
        = (.acquired e, ⟨avail - 1, e :: leased⟩) := by
      simp [acquire_static, htr, hav, hfind]
    constructor
    · show (acquireStaticN pool (suf2.length + 1 + 1) ⟨avail, leased⟩).1 = _
      rw [acquireStaticN, hstep]
      simp only []
      rw [hrec.1]
      simp
    · show (acquireStaticN pool
          (suf2.length + 1 + 1) ⟨avail, leased⟩).2.available = _
      rw [acquireStaticN, hstep]
      simp only []
      rw [hrec.2]
      simp only [List.length_cons]
      omega

/-- Helper: with a transport that raises a retryable network error on
every attempt, the retry loop starting at `attempt` with `fuel` remaining
iterations (where `attempt + fuel = maxRetries + 1`) makes `fuel`
attempts, sleeps `d * 2 ^ i` for each non-final attempt `i`, and ends with
an `HttpClientError` wrapping the final attempt's cause. -/
theorem requestRawAux_allNet (causes : Nat → String) (maxRetries : Nat)
    (d : Rat) :
    ∀ (fuel attempt : Nat), attempt + fuel = maxRetries + 1 → 1 ≤ fuel →
      requestRawAux (fun i => TransportStep.netError (causes i)) maxRetries d
          attempt fuel
        = ⟨(List.range' attempt (fuel - 1)).map (fun i => d * 2 ^ i), [], fuel,
            .error (.client (.network (causes maxRetries)))⟩ := by
  intro fuel
  induction fuel with
  | zero =>
    intro attempt hsum h1
    exact absurd h1 (by omega)
  | succ f ihf =>
    intro attempt hsum _
    cases f with
    | zero =>
      have ha : attempt = maxRetries := by omega
      subst ha
      simp [requestRawAux]
    | succ f2 =>
      have hne : ¬ attempt = maxRetries := by omega
      have ihr := ihf (attempt + 1) (by omega) (by omega)
      rw [requestRawAux]
      simp only [if_neg hne]
      rw [ihr]
      simp [List.range'_succ]

/-- Claim C1 counterexample: building a `hybrid`-mode spider with a
browser config supplied and no http config supplied does NOT fail — the
build succeeds with `http_client = None`, so no `ConfigError`-like error
is raised at build time. -/
theorem C1_counterexample :
    build_spider (fun b => .ok ⟨b⟩)
        ⟨some ⟨"chromium", true, []⟩, none, none⟩ (some .hybrid)
      = .ok ⟨some ⟨⟨"chromium", true, []⟩⟩, none, none⟩
    ∧ (build_spider (fun b => .ok ⟨b⟩)
        ⟨some ⟨"chromium", true, []⟩, none, none⟩ (some .hybrid)).isOk
      = true :=
  ⟨rfl, rfl⟩

/-- Claim C1 (amended): an orchestrator build of a hybrid-mode task with a
browser config but no http config succeeds (with `http_client = None`)
whenever browser creation succeeds; the build fails before `run()` (with
`SpiderError`, the spec's `ConfigError`) only when neither client is
built, e.g. hybrid mode with neither config supplied. -/
theorem C1_amended_hybrid_build
    (create : BrowserConfig → Except String BrowserClient)
    (b : BrowserConfig) (c : BrowserClient) (pp : Option ProxyPool)
    (hc : create b = .ok c) :
    build_spider create ⟨some b, none, pp⟩ (some .hybrid)
        = .ok ⟨some c, none, pp⟩
    ∧ build_spider create ⟨none, none, pp⟩ (some .hybrid)
        = .error .noClients := by
  constructor
  · simp [build_spider, build_browser, build_http, build_proxy, hc]
  · simp [build_spider, build_browser, build_http, build_proxy]

/-- Claim C1 witness: the amended statement at a concrete config. -/
theorem C1_witness :
    ((fun b => Except.ok (BrowserClient.mk b)) :
        BrowserConfig → Except String BrowserClient)
      (BrowserConfig.mk "chromium" true [])
        = Except.ok (BrowserClient.mk (BrowserConfig.mk "chromium" true []))
    ∧ build_spider (fun b => Except.ok (BrowserClient.mk b))
        ⟨some (BrowserConfig.mk "chromium" true []), none, none⟩ (some .hybrid)
        = .ok ⟨some (BrowserClient.mk (BrowserConfig.mk "chromium" true [])),
            none, none⟩ :=
  ⟨rfl,
    (C1_amended_hybrid_build (fun b => Except.ok (BrowserClient.mk b))
      (BrowserConfig.mk "chromium" true [])
      (BrowserClient.mk (BrowserConfig.mk "chromium" true []))
      none rfl).1⟩

/-- Claim C2: with `max_retries = N` and a transport failing every attempt
with a retryable network error or timeout, `request_raw` makes exactly
`N + 1` attempts, sleeps `retry_delay * 2 ^ attempt` for attempts
`0 .. N - 1` in order, and finally raises an `HttpClientError` wrapping
the final attempt's cause. -/
theorem C2_retry_backoff_exhaustion (causes : Nat → String)
    (config : RequestConfig) :
    (request_raw (fun i => TransportStep.netError (causes i)) config).attempts
        = config.max_retries + 1
    ∧ (request_raw (fun i => TransportStep.netError (causes i)) config).sleeps
        = (List.range config.max_retries).map
            (fun i => config.retry_delay * 2 ^ i)
    ∧ (request_raw (fun i => TransportStep.netError (causes i)) config).result
        = .error (.client (.network (causes config.max_retries))) := by
  have h := requestRawAux_allNet causes config.max_retries config.retry_delay
    (config.max_retries + 1) 0 (by omega) (by omega)
  rw [request_raw, h]
  refine ⟨rfl, ?_, rfl⟩
  simp [List.range_eq_range']

/-- Claim C3: when the transport's first response has status at least 400,
`request_raw` raises `HttpClientError` carrying that status and body on
the first attempt — one attempt, no sleeps, no retry, regardless of the
remaining retry budget. -/
theorem C3_status_error_first_attempt (t : Nat → TransportStep)
    (config : RequestConfig) (status : Nat) (body : String)
    (h400 : 400 ≤ status) (h0 : t 0 = .ok status body) :
    request_raw t config
      = ⟨[], [0], 1, .error (.client (.statusError status body))⟩ := by
  rw [request_raw]
  rw [requestRawAux]
  rw [h0]
  simp [h400]

/-- Claim C3 witness: a 404 first response at a concrete request config. -/
theorem C3_witness :
    (400 : Nat) ≤ 404
    ∧ (fun _ : Nat => TransportStep.ok 404 "not found") 0
        = TransportStep.ok 404 "not found"
    ∧ request_raw (fun _ => TransportStep.ok 404 "not found")
        ⟨"https://example.test", "GET", none, none, none, none, none, none,
          none, 3, 1, [], none⟩
      = ⟨[], [0], 1, .error (.client (.statusError 404 "not found"))⟩ :=
  ⟨by decide, rfl,
    C3_status_error_first_attempt (fun _ => TransportStep.ok 404 "not found")
      ⟨"https://example.test", "GET", none, none, none, none, none, none,
        none, 3, 1, [], none⟩
      404 "not found" (by decide) rfl⟩

/-- Claim C4 evaluated at the failing input: when the transport returns a
404 response, `request` obtains a response on attempt 0, raises the
status `HttpClientError`, and closes nothing — the obtained response
resource is not released on this error path. -/
theorem C4_status_error_leaks_response :
    (request (fun _ => TransportStep.ok 404 "not found")
        ⟨"https://example.test", "GET", none, none, none, none, none, none,
          none, 3, 1, [], none⟩).obtained = [0]
    ∧ (request (fun _ => TransportStep.ok 404 "not found")
        ⟨"https://example.test", "GET", none, none, none, none, none, none,
          none, 3, 1, [], none⟩).closed = []
    ∧ (request (fun _ => TransportStep.ok 404 "not found")
        ⟨"https://example.test", "GET", none, none, none, none, none, none,
          none, 3, 1, [], none⟩).result
      = .error (.statusError 404 "not found") :=
  ⟨rfl, rfl, rfl⟩

/-- Claim C5 counterexample: a fresh manager over a pool with `K = 1`
static endpoint and `max_connections = 1` answers the second (`K + 1`-th)
call by blocking forever on the semaphore — it does not raise the
`ProxyError` the claim requires. -/
theorem C5_counterexample :
    (acquireStaticN ⟨1, "", "", none, some ["a"]⟩ 2 ⟨1, []⟩).1
      = [AcquireOutcome.acquired "a", AcquireOutcome.blocked]
    ∧ AcquireOutcome.blocked ≠ AcquireOutcome.proxyError := by
  constructor
  · rfl
  · decide

/-- Claim C5 (amended): for a fresh manager over a pool with `K` distinct
static endpoints and `max_connections ≥ K + 1`, the first `K` calls to
`acquire_static` succeed returning the endpoints in list order (each the
first not-yet-leased entry, hence pairwise distinct), and the `K + 1`-th
call raises `ProxyError`; each call consumes a permit.  With fewer
permits, a call blocks forever instead. -/
theorem C5_amended_static_acquisition (eps : List String) (M : Nat)
    (hnd : eps.Nodup) (hne : eps ≠ []) (hM : eps.length + 1 ≤ M) :
    (acquireStaticN ⟨M, "", "", none, some eps⟩ (eps.length + 1) ⟨M, []⟩).1
        = eps.map AcquireOutcome.acquired ++ [AcquireOutcome.proxyError]
      ∧ ((acquireStaticN ⟨M, "", "", none, some eps⟩
            (eps.length + 1) ⟨M, []⟩).1.take eps.length).Nodup
      ∧ (acquireStaticN ⟨M, "", "", none, some eps⟩
            (eps.length + 1) ⟨M, []⟩).2.available = M - (eps.length + 1) := by
  have h := acquireStaticN_spec_aux ⟨M, "", "", none, some eps⟩ eps rfl hne hnd
    eps [] [] M (by simp) (by simp) hM
  refine ⟨h.1, ?_, h.2⟩
  rw [h.1]
  have hlen : (eps.map AcquireOutcome.acquired).length = eps.length := by simp
  rw [List.take_left' hlen]
  have hinj : Function.Injective AcquireOutcome.acquired := by
    intro a b hab
    injection hab
  exact hnd.map hinj

/-- Claim C5 witness: two distinct endpoints, three permits. -/
theorem C5_witness : (["a", "b"] : List String).Nodup
    ∧ (["a", "b"] : List String) ≠ []
    ∧ (["a", "b"] : List String).length + 1 ≤ 3
    ∧ (acquireStaticN ⟨3, "", "", none, some ["a", "b"]⟩ 3 ⟨3, []⟩).1
        = [AcquireOutcome.acquired "a", AcquireOutcome.acquired "b",
            AcquireOutcome.proxyError] := by
  refine ⟨by decide, by decide, by decide, ?_⟩
  have h := (C5_amended_static_acquisition ["a", "b"] 3
    (by decide) (by decide) (by decide)).1
  simpa using h

/-- Claim C6: on a pool with no (truthy) rotating endpoint configured,
`acquire_rotating` raises the missing-configuration `RuntimeError` (the
spec's `ConfigError`) immediately: the state — in particular the permit
count — is unchanged, no permit is acquired and no blocking wait
occurs. -/
theorem C6_rotating_missing_config_fails_fast (pool : ProxyPool)
    (st : ProxyState)
    (h : truthyStr pool.rotating_endpoint = false) :
    acquire_rotating pool st = (AcquireOutcome.missingConfig, st) := by
  simp [acquire_rotating, h]

/-- Claim C6 witness: a static-only pool. -/
theorem C6_witness :
    truthyStr (ProxyPool.mk 2 "" "" none (some ["a"])).rotating_endpoint
      = false
    ∧ acquire_rotating (ProxyPool.mk 2 "" "" none (some ["a"])) ⟨2, []⟩
        = (AcquireOutcome.missingConfig, ⟨2, []⟩) :=
  ⟨by decide,
    C6_rotating_missing_config_fails_fast
      (ProxyPool.mk 2 "" "" none (some ["a"])) ⟨2, []⟩ (by decide)⟩

/-- Claim C7: `_build_request_kwargs` merges field-by-field — for each of
headers, cookies, timeout and impersonation profile independently, the
result equals the spec's per-field merge rule (per-request value when
present, else the session default), never a whole-object replacement. -/
theorem C7_merge_fieldwise (session : HttpConfig) (config : RequestConfig) :
    (build_request_kwargs session config).headers
        = mergeOptField config.headers session.headers
    ∧ (build_request_kwargs session config).cookies
        = mergeOptField config.cookies session.cookies
    ∧ (build_request_kwargs session config).timeout
        = mergeReqField config.timeout session.timeout
    ∧ (build_request_kwargs session config).impersonate
        = mergeReqField config.impersonate session.impersonate := by
  refine ⟨?_, ?_, ?_, ?_⟩
  · cases hc : config.headers <;>
      simp [build_request_kwargs, mergeOptField, hc]
  · cases hc : config.cookies <;>
      simp [build_request_kwargs, mergeOptField, hc]
  · cases hc : config.timeout <;>
      simp [build_request_kwargs, mergeReqField, hc]
  · cases hc : config.impersonate <;>
      simp [build_request_kwargs, mergeReqField, hc]

/-- Claim C8 counterexample: with both clients built and the run failing,
a browser-close failure makes `_cleanup` raise immediately: the http
close is never attempted (zero http close calls, not one), and the
surfaced error is the cleanup failure. -/
theorem C8_counterexample :
    scrape (fun b => .ok ⟨b⟩)
        ⟨some ⟨"chromium", true, []⟩, some ⟨none, none, 30, "chrome"⟩, none⟩
        (some .hybrid)
        (.failsAfter ["r1"] "boom")
        ⟨.error "browser close failed", .ok ()⟩
      = ⟨["r1"], [CloseCall.browser],
          .error (.cleanupFailed (.browserClientError "browser close failed"))⟩
    ∧ (scrape (fun b => .ok ⟨b⟩)
        ⟨some ⟨"chromium", true, []⟩, some ⟨none, none, 30, "chrome"⟩, none⟩
        (some .hybrid)
        (.failsAfter ["r1"] "boom")
        ⟨.error "browser close failed", .ok ()⟩).closes.count CloseCall.http
      = 0 :=
  ⟨rfl, rfl⟩

/-- Claim C8 (amended): for a hybrid task with both clients built whose
run raises mid-sequence, when both closes succeed, cleanup invokes
browser-close then http-close exactly once each and the wrapping
`WeaverError` for the run failure then propagates; but a browser-close
failure prevents the http close from ever being attempted, and the
cleanup error propagates instead of the run error. -/
theorem C8_amended_cleanup_sequence
    (create : BrowserConfig → Except String BrowserClient)
    (config : SpiderConfig) (clients : SpiderClients)
    (bc : BrowserClient) (hcl : HttpClient)
    (recs : List String) (err : String) (cb : CloseBehavior)
    (hbuild : build_spider create config (some .hybrid) = .ok clients)
    (hb : clients.browser_client = some bc)
    (hh : clients.http_client = some hcl) :
    (cb.browserClose = .ok () → cb.httpClose = .ok () →
      scrape create config (some .hybrid) (.failsAfter recs err) cb
        = ⟨recs, [CloseCall.browser, CloseCall.http],
            .error (.runFailed err)⟩)
    ∧ (∀ e, cb.browserClose = .error e →
      scrape create config (some .hybrid) (.failsAfter recs err) cb
        = ⟨recs, [CloseCall.browser],
            .error (.cleanupFailed (.browserClientError e))⟩) := by
  constructor
  · intro hbo hho
    simp [scrape, hbuild, cleanup, cleanupHttpStep, hb, hh, hbo, hho]
  · intro e hbe
    simp [scrape, hbuild, cleanup, cleanupHttpStep, hb, hh, hbe]

/-- Claim C8 witness: the both-closes-succeed branch of the amended
statement at a concrete hybrid configuration. -/
theorem C8_witness :
    build_spider (fun b => Except.ok (BrowserClient.mk b))
        ⟨some (BrowserConfig.mk "chromium" true []),
          some (HttpConfig.mk none none 30 "chrome"), none⟩ (some .hybrid)
      = .ok ⟨some (BrowserClient.mk (BrowserConfig.mk "chromium" true [])),
          some (HttpClient.mk (HttpConfig.mk none none 30 "chrome")), none⟩
    ∧ scrape (fun b => Except.ok (BrowserClient.mk b))
        ⟨some (BrowserConfig.mk "chromium" true []),
          some (HttpConfig.mk none none 30 "chrome"), none⟩ (some .hybrid)
        (.failsAfter ["r1"] "boom") ⟨.ok (), .ok ()⟩
      = ⟨["r1"], [CloseCall.browser, CloseCall.http],
          .error (.runFailed "boom")⟩ :=
  ⟨rfl,
    (C8_amended_cleanup_sequence (fun b => Except.ok (BrowserClient.mk b))
      ⟨some (BrowserConfig.mk "chromium" true []),
        some (HttpConfig.mk none none 30 "chrome"), none⟩
      ⟨some (BrowserClient.mk (BrowserConfig.mk "chromium" true [])),
        some (HttpClient.mk (HttpConfig.mk none none 30 "chrome")), none⟩
      (BrowserClient.mk (BrowserConfig.mk "chromium" true []))
      (HttpClient.mk (HttpConfig.mk none none 30 "chrome"))
      ["r1"] "boom" ⟨.ok (), .ok ()⟩
      rfl rfl rfl).1 rfl rfl⟩

/-- Claim C9 evaluated at the failing input: when the run raises and the
browser close then fails during cleanup, the error surfaced by `scrape`
is the cleanup `WeaverError` — the primary run error is replaced, not
carried in the raised error. -/
theorem C9_cleanup_error_masks_run_error :
    scrape (fun b => .ok ⟨b⟩)
        ⟨some ⟨"chromium", true, []⟩, some ⟨none, none, 30, "chrome"⟩, none⟩
        (some .hybrid)
        (.failsAfter ["r1"] "primary run failure")
        ⟨.error "cleanup failure", .ok ()⟩
      = ⟨["r1"], [CloseCall.browser],
          .error (.cleanupFailed (.browserClientError "cleanup failure"))⟩
    ∧ (scrape (fun b => .ok ⟨b⟩)
        ⟨some ⟨"chromium", true, []⟩, some ⟨none, none, 30, "chrome"⟩, none⟩
        (some .hybrid)
        (.failsAfter ["r1"] "primary run failure")
        ⟨.error "cleanup failure", .ok ()⟩).outcome
      ≠ .error (.runFailed "primary run failure") := by
  refine ⟨rfl, ?_⟩
  intro h
  simp [scrape, build_spider, build_browser, build_http, build_proxy,
    cleanup, cleanupHttpStep] at h

/-- Claim C10: when `acquire_static` finds every configured static
endpoint already leased, the `ProxyError` is raised only after a permit
was consumed, and the resulting state keeps the permit consumed (available
count strictly decreased by one, leased set unchanged) — no restore on
the error path. -/
theorem C10_exhausted_call_consumes_permit (pool : ProxyPool)
    (st : ProxyState)
    (hs : truthyList pool.static_endpoints = true)
    (ha : st.available ≠ 0)
    (hx : get_static_endpoint pool st.leased = none) :
    acquire_static pool st
        = (AcquireOutcome.proxyError, ⟨st.available - 1, st.leased⟩)
      ∧ (acquire_static pool st).2.available < st.available := by
  have heq : acquire_static pool st
      = (AcquireOutcome.proxyError, ⟨st.available - 1, st.leased⟩) := by
    simp [acquire_static, hs, ha, hx]
  refine ⟨heq, ?_⟩
  rw [heq]
  simp only []
  omega

/-- Claim C10 witness: a one-endpoint pool whose endpoint is leased and a
state with two free permits. -/
theorem C10_witness :
    truthyList (ProxyPool.mk 1 "" "" none (some ["a"])).static_endpoints
      = true
    ∧ (ProxyState.mk 2 ["a"]).available ≠ 0
    ∧ get_static_endpoint (ProxyPool.mk 1 "" "" none (some ["a"])) ["a"]
      = none
    ∧ acquire_static (ProxyPool.mk 1 "" "" none (some ["a"])) ⟨2, ["a"]⟩
        = (AcquireOutcome.proxyError, ⟨1, ["a"]⟩) :=
  ⟨by decide, by decide, by decide,
    (C10_exhausted_call_consumes_permit
      (ProxyPool.mk 1 "" "" none (some ["a"])) ⟨2, ["a"]⟩
      (by decide) (by decide) (by decide)).1⟩

end Weaver
